import Mathlib

/-!
Verification development for `django_cte/query.py`, a shim that carries an
ordered list of common-table-expression (CTE) definitions on a query object,
propagates the list across clone/chain/combine, selects a compiler class per
query subtype, and prepends `WITH RECURSIVE` clauses to the base SQL.

The embedding is shallow: the parts of the host ORM that the shim delegates to
(`as_sql` of the wrapped compiler, the body compilation of each CTE, the
superclass `combine`/`chain`) are opaque inputs. Python list objects are
mutable and aliased, so `_with_ctes` lists live in an explicit heap (`Store`)
indexed by object identity; a slice copy `xs[:]` is an allocation of a fresh
object holding the same value.  Parameters bound by queries are opaque values
of a type `α`; Python tuples/lists of parameters are Lean lists.
-/

namespace DjangoCTE

/-- A CTE reference as consumed by `CTECompiler.generate_sql`: a `name`
together with the result of compiling its body query, i.e. the `(sql, params)`
pair returned by `cte.query.get_compiler(connection=connection).as_sql()`,
which the shim treats as opaque output of the host ORM. -/
structure CTE (α : Type) where
  name : String
  querySql : String
  queryParams : List α
  deriving DecidableEq

/-- The state of a query as read by `CTECompiler.generate_sql`: the truthiness
of `getattr(query, 'combinator', False)` and the value of the `_with_ctes`
list. -/
structure QueryState (α : Type) where
  combinator : Bool
  withCtes : List (CTE α)
  deriving DecidableEq

/-- `CTECompiler.TEMPLATE = "(name) AS ((query))"` (with `str.format` holes in
place of the parenthesised names) instantiated at `name` and `query`. -/
def TEMPLATE_format (name query : String) : String :=
  name ++ " AS (" ++ query ++ ")"

/-- One iteration of the `for cte in query._with_ctes` loop in
`CTECompiler.generate_sql`: `ctes.append(TEMPLATE.format(...))` and
`params.extend(cte_params)`. -/
def ctesStep {α : Type} (acc : List String × List α) (cte : CTE α) :
    List String × List α :=
  (acc.1 ++ [TEMPLATE_format cte.name cte.querySql], acc.2 ++ cte.queryParams)

/-- `CTECompiler.generate_sql(cls, connection, query, as_sql)`.  When the
query has a truthy `combinator` it returns `as_sql()` unchanged; otherwise it
accumulates a clause and the parameters for each CTE, prefixes
`"WITH RECURSIVE"` and the comma-joined clauses when at least one CTE exists,
appends the base SQL and parameters, and space-joins the pieces. -/
def CTECompiler.generate_sql {α : Type} (query : QueryState α)
    (as_sql : Unit → String × List α) : String × List α :=
  if query.combinator then as_sql ()
  else
    let acc := query.withCtes.foldl ctesStep ([], [])
    let sql : List String :=
      if acc.1 = [] then [] else ["WITH RECURSIVE", String.intercalate ", " acc.1]
    let base := as_sql ()
    (String.intercalate " " (sql ++ [base.1]), acc.2 ++ base.2)

/-- Heap of Python list objects holding `_with_ctes` values.  A `Nat` index is
the object identity of one list; `alloc` models evaluating a list display `[]`
or a slice copy `xs[:]` (both create a fresh object), `set` models in-place
mutation through a reference, `get` reads the current value of an object. -/
structure Store (α : Type) where
  lists : List (List (CTE α))
  deriving DecidableEq

/-- Allocate a fresh list object with value `v`; returns the new heap and the
identity of the new object. -/
def Store.alloc {α : Type} (s : Store α) (v : List (CTE α)) : Store α × Nat :=
  (⟨s.lists ++ [v]⟩, s.lists.length)

/-- Current value of the list object with identity `r`. -/
def Store.get {α : Type} (s : Store α) (r : Nat) : List (CTE α) :=
  s.lists.getD r []

/-- Overwrite the value of the list object with identity `r` (an in-place
mutation such as `append` performed through any reference to it). -/
def Store.set {α : Type} (s : Store α) (r : Nat) (v : List (CTE α)) : Store α :=
  ⟨s.lists.set r v⟩

/-- The concrete class of a query object built by this module: `CTEQuery`
itself or one of its two subclasses `CTEUpdateQuery`, `CTEDeleteQuery`. -/
inductive QueryClass where
  | cteQuery
  | cteUpdateQuery
  | cteDeleteQuery
  deriving DecidableEq

/-- A Django base query class that may be passed as the `klass` argument of
`clone`/`chain` and looked up in `QUERY_TYPES`. -/
inductive DjangoQueryClass where
  | query
  | updateQuery
  | deleteQuery
  deriving DecidableEq

/-- The compiler classes named in `COMPILER_TYPES` and the default
`CTEQueryCompiler`. -/
inductive CompilerClass where
  | cteQueryCompiler
  | cteUpdateQueryCompiler
  | cteDeleteQueryCompiler
  deriving DecidableEq

/-- A `CTEQuery` object as far as the shim's own state is concerned: its
concrete class (`self.__class__`) and the identity of the list object bound to
its `_with_ctes` attribute. -/
structure CTEQuery where
  cls : QueryClass
  withCtesRef : Nat
  deriving DecidableEq

/-- `CTEQuery.__init__`: after delegating to the superclass constructor the
instance binds `self._with_ctes = []`, a freshly allocated empty list.  The
subclasses `CTEUpdateQuery` and `CTEDeleteQuery` add no state of their own, so
construction of any `cls` runs this initialiser. -/
def CTEQuery.init {α : Type} (s : Store α) (cls : QueryClass) :
    Store α × CTEQuery :=
  let a := Store.alloc s []
  (a.1, ⟨cls, a.2⟩)

/-- The message of the `TypeError` raised by `CTEQuery.combine`. -/
def cteMergeError : String := "cannot merge queries with CTEs on both sides"

/-- `CTEQuery.combine(self, other, connector)`.  If `other._with_ctes` is
non-empty and `self._with_ctes` is also non-empty a `TypeError` is raised
(modelled as `Except.error`, with the heap as it stood at the raise); if only
`other`'s is non-empty, `self._with_ctes = other._with_ctes[:]` rebinds
`self`'s attribute to a fresh copy.  The final delegation to the superclass
`combine` is host-ORM code that does not touch `_with_ctes`. -/
def CTEQuery.combine {α : Type} [DecidableEq α] (s : Store α) (self other : CTEQuery) :
    Store α × Except String CTEQuery :=
  if Store.get s other.withCtesRef ≠ [] then
    if Store.get s self.withCtesRef ≠ [] then
      (s, Except.error cteMergeError)
    else
      let a := Store.alloc s (Store.get s other.withCtesRef)
      (a.1, Except.ok { self with withCtesRef := a.2 })
  else
    (s, Except.ok self)

/-- `QUERY_TYPES.get(klass, default)`: the module-level dict mapping
`UpdateQuery` to `CTEUpdateQuery` and `DeleteQuery` to `CTEDeleteQuery`. -/
def QUERY_TYPES_get (klass : Option DjangoQueryClass) (dflt : QueryClass) :
    QueryClass :=
  match klass with
  | some DjangoQueryClass.updateQuery => QueryClass.cteUpdateQuery
  | some DjangoQueryClass.deleteQuery => QueryClass.cteDeleteQuery
  | _ => dflt

/-- `CTEQuery.__chain(self, _name, klass, ...)`, the body shared by `clone`
(Django < 2.0) and `chain` (Django >= 2.0): resolve the target class through
`QUERY_TYPES` (defaulting to `self.__class__`), let the superclass produce the
clone, then rebind `clone._with_ctes = self._with_ctes[:]` — a freshly
allocated copy of the current value of `self`'s list. -/
def CTEQuery.chain {α : Type} (s : Store α) (q : CTEQuery)
    (klass : Option DjangoQueryClass) : Store α × CTEQuery :=
  let cls := QUERY_TYPES_get klass q.cls
  let a := Store.alloc s (Store.get s q.withCtesRef)
  (a.1, ⟨cls, a.2⟩)

/-- `COMPILER_TYPES`: the module-level dict mapping `CTEUpdateQuery` to
`CTEUpdateQueryCompiler` and `CTEDeleteQuery` to `CTEDeleteQueryCompiler`;
`none` models absence of a key. -/
def COMPILER_TYPES (cls : QueryClass) : Option CompilerClass :=
  match cls with
  | QueryClass.cteUpdateQuery => some CompilerClass.cteUpdateQueryCompiler
  | QueryClass.cteDeleteQuery => some CompilerClass.cteDeleteQueryCompiler
  | QueryClass.cteQuery => none

/-- `CTEQuery.get_compiler`: after the connection bookkeeping copied from
Django, the compiler class is `COMPILER_TYPES.get(self.__class__,
CTEQueryCompiler)`. -/
def CTEQuery.get_compiler (q : CTEQuery) : CompilerClass :=
  (COMPILER_TYPES q.cls).getD CompilerClass.cteQueryCompiler

/-! Helper lemmas shared by the claim theorems. -/

theorem intercalate_one (s a : String) : String.intercalate s [a] = a := rfl

theorem intercalate_three (s a b c : String) :
    String.intercalate s [a, b, c] = a ++ s ++ b ++ s ++ c := rfl

theorem ctesStep_foldl {α : Type} (l : List (CTE α)) (a : List String × List α) :
    l.foldl ctesStep a =
      (a.1 ++ l.map (fun c => TEMPLATE_format c.name c.querySql),
       a.2 ++ (l.map (fun c => c.queryParams)).flatten) := by
  induction l generalizing a with
  | nil => simp
  | cons c t ih => simp [ctesStep, ih, List.append_assoc]

theorem Store.get_alloc_new {α : Type} (s : Store α) (v : List (CTE α)) :
    Store.get (Store.alloc s v).1 (Store.alloc s v).2 = v := by
  simp [Store.alloc, Store.get, List.getD_append_right]

theorem Store.get_alloc_old {α : Type} (s : Store α) (v : List (CTE α)) (r : Nat)
    (h : r < s.lists.length) :
    Store.get (Store.alloc s v).1 r = Store.get s r := by
  simp [Store.alloc, Store.get, List.getD, List.getElem?_append_left h]

theorem Store.get_set_ne {α : Type} (s : Store α) (i j : Nat) (v : List (CTE α))
    (h : i ≠ j) : Store.get (Store.set s i v) j = Store.get s j := by
  simp [Store.set, Store.get, List.getD, List.getElem?_set_ne h]

theorem alloc_ref_lt {α : Type} (s : Store α) (v : List (CTE α)) :
    (Store.alloc s v).2 < (Store.alloc s v).1.lists.length := by
  simp [Store.alloc]

theorem alloc_ref_eq {α : Type} (s : Store α) (v : List (CTE α)) :
    (Store.alloc s v).2 = s.lists.length := rfl

theorem alloc_lists_length {α : Type} (s : Store α) (v : List (CTE α)) :
    (Store.alloc s v).1.lists.length = s.lists.length + 1 := by
  simp [Store.alloc]

/-! Theorems for the claims. -/

/-- C1: for a query carrying at least one CTE and no set-combinator,
`CTECompiler.generate_sql` returns the SQL `WITH RECURSIVE` followed by the
comma-separated `name AS (body)` clauses in declaration order followed by the
base SQL, and the parameters are each CTE's parameters in that order followed
by the base query's parameters. -/
theorem generate_sql_with_ctes {α : Type} (q : QueryState α)
    (as_sql : Unit → String × List α)
    (h1 : q.withCtes ≠ []) (h2 : q.combinator = false) :
    CTECompiler.generate_sql q as_sql =
      ("WITH RECURSIVE " ++
         String.intercalate ", "
           (q.withCtes.map (fun c => TEMPLATE_format c.name c.querySql)) ++
         " " ++ (as_sql ()).1,
       (q.withCtes.map (fun c => c.queryParams)).flatten ++ (as_sql ()).2) := by
  unfold CTECompiler.generate_sql
  rw [h2]
  simp only [Bool.false_eq_true, if_false, ctesStep_foldl, List.nil_append]
  have hm : q.withCtes.map (fun c => TEMPLATE_format c.name c.querySql) ≠ [] := by
    simpa using h1
  rw [if_neg hm]
  simp only [List.cons_append, List.nil_append, intercalate_three]
  have hws : ("WITH RECURSIVE" : String) ++ " " = "WITH RECURSIVE " := rfl
  rw [← hws]

/-- C1 witness: a concrete two-CTE query. -/
theorem generate_sql_with_ctes_witness :
    CTECompiler.generate_sql
      (QueryState.mk false [CTE.mk "t" "SELECT 1" [7], CTE.mk "u" "SELECT 2" [8, 9]])
      (fun _ => ("SELECT x", ([3] : List Nat))) =
      ("WITH RECURSIVE t AS (SELECT 1), u AS (SELECT 2) SELECT x", [7, 8, 9, 3]) := by
  have h := generate_sql_with_ctes
      (QueryState.mk false [CTE.mk "t" "SELECT 1" [7], CTE.mk "u" "SELECT 2" [8, 9]])
      (fun _ => ("SELECT x", ([3] : List Nat)))
      (List.cons_ne_nil _ _) rfl
  rw [h]
  rfl

/-- C2: for a query whose CTE list is empty, the SQL string returned by
`CTECompiler.generate_sql` is exactly the base SQL produced by the wrapped
`as_sql` callback. -/
theorem generate_sql_no_ctes {α : Type} (q : QueryState α)
    (as_sql : Unit → String × List α) (h : q.withCtes = []) :
    (CTECompiler.generate_sql q as_sql).1 = (as_sql ()).1 := by
  unfold CTECompiler.generate_sql
  cases hc : q.combinator
  · simp only [Bool.false_eq_true, if_false, h]
    simp [intercalate_one]
  · simp

/-- C2 witness: a concrete CTE-free query. -/
theorem generate_sql_no_ctes_witness :
    (CTECompiler.generate_sql (QueryState.mk false ([] : List (CTE Nat)))
        (fun _ => ("SELECT y", [4, 5]))).1 = "SELECT y" := by
  have h := generate_sql_no_ctes (QueryState.mk false ([] : List (CTE Nat)))
      (fun _ => ("SELECT y", [4, 5])) rfl
  rw [h]

/-- C6: when the query's `combinator` attribute is truthy,
`CTECompiler.generate_sql` returns exactly the base `as_sql()` result, even if
the CTE list is non-empty. -/
theorem generate_sql_combinator {α : Type} (q : QueryState α)
    (as_sql : Unit → String × List α) (h : q.combinator = true) :
    CTECompiler.generate_sql q as_sql = as_sql () := by
  unfold CTECompiler.generate_sql
  rw [h]
  simp

/-- C6 witness: a combinator query that nevertheless carries a CTE. -/
theorem generate_sql_combinator_witness :
    CTECompiler.generate_sql
      (QueryState.mk true [CTE.mk "t" "SELECT 1" ([7] : List Nat)])
      (fun _ => ("SELECT a UNION SELECT b", [1])) =
      ("SELECT a UNION SELECT b", [1]) := by
  have h := generate_sql_combinator
      (QueryState.mk true [CTE.mk "t" "SELECT 1" ([7] : List Nat)])
      (fun _ => ("SELECT a UNION SELECT b", [1])) rfl
  rw [h]

/-- C3: `CTEQuery.combine` raises the `TypeError` exactly when both queries
carry non-empty CTE lists; the shim introduces no other error condition. -/
theorem combine_typeerror_iff {α : Type} [DecidableEq α] (s : Store α)
    (self other : CTEQuery) :
    (CTEQuery.combine s self other).2 = Except.error cteMergeError ↔
      (Store.get s self.withCtesRef ≠ [] ∧ Store.get s other.withCtesRef ≠ []) := by
  unfold CTEQuery.combine
  by_cases ho : Store.get s other.withCtesRef ≠ []
  · by_cases hs : Store.get s self.withCtesRef ≠ []
    · simp [ho, hs]
    · simp [ho, hs]
  · simp [ho]

/-- C3 witness: two single-CTE queries cannot be combined. -/
theorem combine_typeerror_iff_witness :
    (CTEQuery.combine (Store.mk [[CTE.mk "a" "A" ([1] : List Nat)],
        [CTE.mk "b" "B" [2]]])
      (CTEQuery.mk QueryClass.cteQuery 0) (CTEQuery.mk QueryClass.cteQuery 1)).2 =
      Except.error cteMergeError := by
  exact (combine_typeerror_iff (Store.mk [[CTE.mk "a" "A" ([1] : List Nat)],
      [CTE.mk "b" "B" [2]]])
    (CTEQuery.mk QueryClass.cteQuery 0) (CTEQuery.mk QueryClass.cteQuery 1)).mpr
    ⟨by decide, by decide⟩

/-- C4: `chain`/`clone` produces a clone whose `_with_ctes` has the same value
as the original's, held in a fresh list object, so any later overwrite through
the clone's reference leaves the original's list unchanged. -/
theorem chain_copies_ctes {α : Type} (s : Store α) (q : CTEQuery)
    (klass : Option DjangoQueryClass) (h : q.withCtesRef < s.lists.length) :
    Store.get (CTEQuery.chain s q klass).1
        (CTEQuery.chain s q klass).2.withCtesRef = Store.get s q.withCtesRef ∧
    ∀ v, Store.get
        (Store.set (CTEQuery.chain s q klass).1
          (CTEQuery.chain s q klass).2.withCtesRef v)
        q.withCtesRef = Store.get s q.withCtesRef := by
  unfold CTEQuery.chain
  refine ⟨Store.get_alloc_new s _, fun v => ?_⟩
  have hne : (Store.alloc s (Store.get s q.withCtesRef)).2 ≠ q.withCtesRef := by
    simp only [Store.alloc]
    omega
  rw [Store.get_set_ne _ _ _ _ hne, Store.get_alloc_old _ _ _ h]

/-- C4 witness: chaining a one-CTE query and clearing the clone's list. -/
theorem chain_copies_ctes_witness :
    Store.get (CTEQuery.chain (Store.mk [[CTE.mk "t" "Q" ([1] : List Nat)]])
        (CTEQuery.mk QueryClass.cteQuery 0) none).1
      (CTEQuery.chain (Store.mk [[CTE.mk "t" "Q" ([1] : List Nat)]])
        (CTEQuery.mk QueryClass.cteQuery 0) none).2.withCtesRef =
      [CTE.mk "t" "Q" [1]] ∧
    Store.get (Store.set
        (CTEQuery.chain (Store.mk [[CTE.mk "t" "Q" ([1] : List Nat)]])
          (CTEQuery.mk QueryClass.cteQuery 0) none).1
        (CTEQuery.chain (Store.mk [[CTE.mk "t" "Q" ([1] : List Nat)]])
          (CTEQuery.mk QueryClass.cteQuery 0) none).2.withCtesRef [])
      0 = [CTE.mk "t" "Q" [1]] := by
  have h := chain_copies_ctes (Store.mk [[CTE.mk "t" "Q" ([1] : List Nat)]])
      (CTEQuery.mk QueryClass.cteQuery 0) none (by decide)
  exact ⟨h.1, h.2 []⟩

/-- C5: when at most one side carries CTEs, `CTEQuery.combine` succeeds and
the combined query carries the non-empty side's CTEs (or an empty list when
both sides are empty). -/
theorem combine_merges {α : Type} [DecidableEq α] (s : Store α)
    (self other : CTEQuery)
    (h : ¬(Store.get s self.withCtesRef ≠ [] ∧ Store.get s other.withCtesRef ≠ [])) :
    ∃ q, (CTEQuery.combine s self other).2 = Except.ok q ∧
      Store.get (CTEQuery.combine s self other).1 q.withCtesRef =
        (if Store.get s other.withCtesRef = [] then Store.get s self.withCtesRef
         else Store.get s other.withCtesRef) := by
  unfold CTEQuery.combine
  by_cases ho : Store.get s other.withCtesRef = []
  · simp [ho]
  · have hs : ¬ Store.get s self.withCtesRef ≠ [] := fun hs => h ⟨hs, ho⟩
    simp only [ho, ne_eq, not_false_eq_true, if_true, hs, if_false]
    exact ⟨_, rfl, Store.get_alloc_new s _⟩

/-- C5 witness: combining an empty-CTE query with a one-CTE query succeeds
and the combined query carries the non-empty side's CTE. -/
theorem combine_merges_witness :
    (CTEQuery.combine (Store.mk [[], [CTE.mk "b" "B" ([2] : List Nat)]])
        (CTEQuery.mk QueryClass.cteQuery 0) (CTEQuery.mk QueryClass.cteQuery 1)).2 =
      Except.ok (CTEQuery.mk QueryClass.cteQuery 2) ∧
    Store.get (CTEQuery.combine (Store.mk [[], [CTE.mk "b" "B" ([2] : List Nat)]])
        (CTEQuery.mk QueryClass.cteQuery 0) (CTEQuery.mk QueryClass.cteQuery 1)).1 2 =
      [CTE.mk "b" "B" [2]] := by
  obtain ⟨q, hq, hget⟩ := combine_merges
    (Store.mk [[], [CTE.mk "b" "B" ([2] : List Nat)]])
    (CTEQuery.mk QueryClass.cteQuery 0) (CTEQuery.mk QueryClass.cteQuery 1)
    (by decide)
  have h2 : (CTEQuery.combine (Store.mk [[], [CTE.mk "b" "B" ([2] : List Nat)]])
      (CTEQuery.mk QueryClass.cteQuery 0) (CTEQuery.mk QueryClass.cteQuery 1)).2 =
      Except.ok (CTEQuery.mk QueryClass.cteQuery 2) := rfl
  rw [h2] at hq
  injection hq with hh
  subst hh
  exact ⟨h2, hget⟩

/-- C7: `get_compiler` maps `CTEUpdateQuery` to `CTEUpdateQueryCompiler`,
`CTEDeleteQuery` to `CTEDeleteQueryCompiler`, and defaults to
`CTEQueryCompiler` whenever `COMPILER_TYPES` has no entry for the query's
concrete class. -/
theorem get_compiler_table (q : CTEQuery) :
    (q.cls = QueryClass.cteUpdateQuery →
        CTEQuery.get_compiler q = CompilerClass.cteUpdateQueryCompiler) ∧
    (q.cls = QueryClass.cteDeleteQuery →
        CTEQuery.get_compiler q = CompilerClass.cteDeleteQueryCompiler) ∧
    (COMPILER_TYPES q.cls = none →
        CTEQuery.get_compiler q = CompilerClass.cteQueryCompiler) := by
  refine ⟨?_, ?_, ?_⟩ <;> intro h
  · simp [CTEQuery.get_compiler, COMPILER_TYPES, h]
  · simp [CTEQuery.get_compiler, COMPILER_TYPES, h]
  · simp [CTEQuery.get_compiler, h]

/-- C7 witness: the three concrete classes. -/
theorem get_compiler_table_witness :
    CTEQuery.get_compiler (CTEQuery.mk QueryClass.cteUpdateQuery 0) =
        CompilerClass.cteUpdateQueryCompiler ∧
    CTEQuery.get_compiler (CTEQuery.mk QueryClass.cteDeleteQuery 0) =
        CompilerClass.cteDeleteQueryCompiler ∧
    CTEQuery.get_compiler (CTEQuery.mk QueryClass.cteQuery 0) =
        CompilerClass.cteQueryCompiler :=
  ⟨(get_compiler_table (CTEQuery.mk QueryClass.cteUpdateQuery 0)).1 rfl,
   (get_compiler_table (CTEQuery.mk QueryClass.cteDeleteQuery 0)).2.1 rfl,
   (get_compiler_table (CTEQuery.mk QueryClass.cteQuery 0)).2.2 rfl⟩

/-- C8: every newly constructed query (of any of the three concrete classes)
starts with an empty CTE list held in its own fresh list object: two
constructions yield distinct references, both holding `[]`. -/
theorem init_fresh_empty {α : Type} (s : Store α) (c1 c2 : QueryClass) :
    Store.get (CTEQuery.init (CTEQuery.init s c1).1 c2).1
        (CTEQuery.init s c1).2.withCtesRef = [] ∧
    Store.get (CTEQuery.init (CTEQuery.init s c1).1 c2).1
        (CTEQuery.init (CTEQuery.init s c1).1 c2).2.withCtesRef = [] ∧
    (CTEQuery.init s c1).2.withCtesRef ≠
        (CTEQuery.init (CTEQuery.init s c1).1 c2).2.withCtesRef := by
  unfold CTEQuery.init
  refine ⟨?_, Store.get_alloc_new _ _, ?_⟩
  · rw [Store.get_alloc_old]
    · exact Store.get_alloc_new s []
    · exact alloc_ref_lt s []
  · simp only [alloc_ref_eq, alloc_lists_length]
    omega

/-- C9: when the `TypeError` is raised (both sides carry CTEs), the heap is
untouched: the raise happens before any mutation of `self._with_ctes`. -/
theorem combine_typeerror_no_mutation {α : Type} [DecidableEq α] (s : Store α)
    (self other : CTEQuery)
    (h1 : Store.get s self.withCtesRef ≠ [])
    (h2 : Store.get s other.withCtesRef ≠ []) :
    (CTEQuery.combine s self other).1 = s ∧
    (CTEQuery.combine s self other).2 = Except.error cteMergeError := by
  unfold CTEQuery.combine
  simp [h1, h2]

/-- C9 witness: both sides carry one CTE; the heap is returned unchanged. -/
theorem combine_typeerror_no_mutation_witness :
    (CTEQuery.combine (Store.mk [[CTE.mk "a" "A" ([1] : List Nat)],
        [CTE.mk "b" "B" [2]]])
      (CTEQuery.mk QueryClass.cteQuery 0) (CTEQuery.mk QueryClass.cteQuery 1)).1 =
      Store.mk [[CTE.mk "a" "A" ([1] : List Nat)], [CTE.mk "b" "B" [2]]] ∧
    (CTEQuery.combine (Store.mk [[CTE.mk "a" "A" ([1] : List Nat)],
        [CTE.mk "b" "B" [2]]])
      (CTEQuery.mk QueryClass.cteQuery 0) (CTEQuery.mk QueryClass.cteQuery 1)).2 =
      Except.error cteMergeError := by
  exact combine_typeerror_no_mutation
    (Store.mk [[CTE.mk "a" "A" ([1] : List Nat)], [CTE.mk "b" "B" [2]]])
    (CTEQuery.mk QueryClass.cteQuery 0) (CTEQuery.mk QueryClass.cteQuery 1)
    (by decide) (by decide)

/-- C10: when `combine` adopts the other query's CTEs, it stores them in a
fresh list object (the `[:]` copy), so any later overwrite through the
combined query's reference leaves the other query's list unchanged. -/
theorem combine_copy_independent {α : Type} [DecidableEq α] (s : Store α)
    (self other : CTEQuery)
    (hself : Store.get s self.withCtesRef = [])
    (hother : Store.get s other.withCtesRef ≠ [])
    (hvalid : other.withCtesRef < s.lists.length) :
    ∃ q, (CTEQuery.combine s self other).2 = Except.ok q ∧
      Store.get (CTEQuery.combine s self other).1 q.withCtesRef =
        Store.get s other.withCtesRef ∧
      ∀ v, Store.get (Store.set (CTEQuery.combine s self other).1 q.withCtesRef v)
          other.withCtesRef = Store.get s other.withCtesRef := by
  unfold CTEQuery.combine
  have hs : ¬ Store.get s self.withCtesRef ≠ [] := fun hs => hs hself
  simp only [hother, ne_eq, not_false_eq_true, if_true, hs, if_false]
  refine ⟨_, rfl, Store.get_alloc_new s _, fun v => ?_⟩
  have hne : (Store.alloc s (Store.get s other.withCtesRef)).2 ≠
      other.withCtesRef := by
    simp only [Store.alloc]
    omega
  rw [Store.get_set_ne _ _ _ _ hne, Store.get_alloc_old _ _ _ hvalid]

/-- C10 witness: combine an empty query with a one-CTE query, then clear the
combined query's list; the other query's list is intact. -/
theorem combine_copy_independent_witness :
    (CTEQuery.combine (Store.mk [[], [CTE.mk "c" "C" ([9] : List Nat)]])
        (CTEQuery.mk QueryClass.cteQuery 0) (CTEQuery.mk QueryClass.cteQuery 1)).2 =
      Except.ok (CTEQuery.mk QueryClass.cteQuery 2) ∧
    Store.get (CTEQuery.combine (Store.mk [[], [CTE.mk "c" "C" ([9] : List Nat)]])
        (CTEQuery.mk QueryClass.cteQuery 0) (CTEQuery.mk QueryClass.cteQuery 1)).1 2 =
      [CTE.mk "c" "C" [9]] ∧
    Store.get (Store.set
        (CTEQuery.combine (Store.mk [[], [CTE.mk "c" "C" ([9] : List Nat)]])
          (CTEQuery.mk QueryClass.cteQuery 0) (CTEQuery.mk QueryClass.cteQuery 1)).1
        2 []) 1 = [CTE.mk "c" "C" [9]] := by
  obtain ⟨q, hq, hget, hmut⟩ := combine_copy_independent
    (Store.mk [[], [CTE.mk "c" "C" ([9] : List Nat)]])
    (CTEQuery.mk QueryClass.cteQuery 0) (CTEQuery.mk QueryClass.cteQuery 1)
    (by decide) (by decide) (by decide)
  have h2 : (CTEQuery.combine (Store.mk [[], [CTE.mk "c" "C" ([9] : List Nat)]])
      (CTEQuery.mk QueryClass.cteQuery 0) (CTEQuery.mk QueryClass.cteQuery 1)).2 =
      Except.ok (CTEQuery.mk QueryClass.cteQuery 2) := rfl
  rw [h2] at hq
  injection hq with hh
  subst hh
  exact ⟨h2, hget, hmut []⟩

end DjangoCTE
